import Mathlib

/-!
Shallow embedding of the auditorsec-platform-poc task-queue core
(`src/soc/task_queue.py`, `src/soc/orchestration_engine.py`,
`src/soc/alert_handler_with_predictive_actions.py`) and proofs of the
spec's testable properties against it.

Modelling conventions, matched line-by-line against the Python source:

* Redis lists are Lean `List`s with the head being the most recent
  `LPUSH`; `RPOP` removes the last element.  Tier lists live in explicit
  fields of `QueueState` (Redis keys `task_queue:LOW` … `task_queue:URGENT`
  and `task_queue:dead_letter` are distinct keys, hence distinct fields).
* Per-task metadata (`task_meta:<id>` keys written with SETEX) is an
  association list keyed by task id.  The 24-hour TTL is passive wall-clock
  behaviour and is not modelled; no claim depends on expiry.
* Python `uuid.uuid4()` and `datetime.utcnow().isoformat()` are environment
  inputs; they appear as explicit `tid` / `now` / `schedTime` parameters.
* `enqueue_task` serialises the metadata dataclass with
  `json.dumps(asdict(metadata), default=str)`.  `TaskPriority` and
  `TaskStatus` are plain `Enum`s (not `IntEnum`/`StrEnum`), so `default=str`
  stores `str(TaskPriority.HIGH) = "TaskPriority.HIGH"` and
  `str(TaskStatus.PENDING) = "TaskStatus.PENDING"` — the *string* forms,
  not the ordinals/values.  The stored priority representation is the type
  `PyPrioVal` below; `TaskPriority.ofValue` embeds the Python enum
  constructor call `TaskPriority(value)`, which raises `ValueError` on any
  value that is not one of the member values `0..3`.
* A Python `dict` payload is passed through `json.dumps` once at enqueue
  and never touched again; the payload is therefore modelled as its opaque
  serialised string.
* A raised Python exception is an `Except.error`; because the Redis writes
  issued before the raise persist, fallible operations return the
  (possibly updated) state alongside the `Except` result.
-/

namespace SocQueue

/-- Embedding of the `TaskPriority(Enum)` class: `LOW=0, NORMAL=1, HIGH=2,
URGENT=3`. -/
inductive TaskPriority where
  | LOW
  | NORMAL
  | HIGH
  | URGENT
deriving DecidableEq

/-- The Python `.value` of a `TaskPriority` member. -/
def TaskPriority.value : TaskPriority → Nat
  | .LOW => 0
  | .NORMAL => 1
  | .HIGH => 2
  | .URGENT => 3

/-- The Python `.name` of a `TaskPriority` member. -/
def TaskPriority.nameStr : TaskPriority → String
  | .LOW => "LOW"
  | .NORMAL => "NORMAL"
  | .HIGH => "HIGH"
  | .URGENT => "URGENT"

/-- Stored representation of a priority inside a JSON document: either a
JSON number (written by `enqueue_task`'s task envelope, which stores
`priority.value`) or a JSON string (written for the metadata record by
`json.dumps(..., default=str)`, which stores `str(TaskPriority.X)`). -/
inductive PyPrioVal where
  | pint (n : Nat)
  | pstr (s : String)
deriving DecidableEq

/-- Embedding of the Python enum constructor call `TaskPriority(value)`:
succeeds exactly on the member values `0..3`, raises `ValueError`
otherwise (in particular on every string, including the
`"TaskPriority.X"` strings that `default=str` stores in metadata). -/
def TaskPriority.ofValue : PyPrioVal → Except String TaskPriority
  | PyPrioVal.pint 0 => Except.ok TaskPriority.LOW
  | PyPrioVal.pint 1 => Except.ok TaskPriority.NORMAL
  | PyPrioVal.pint 2 => Except.ok TaskPriority.HIGH
  | PyPrioVal.pint 3 => Except.ok TaskPriority.URGENT
  | _ => Except.error "ValueError: not a valid TaskPriority"

/-- Embedding of the `TaskStatus(Enum)` class (values are the lowercase
strings). -/
inductive TaskStatus where
  | PENDING
  | RUNNING
  | COMPLETED
  | FAILED
  | RETRYING
  | DEAD_LETTERED
deriving DecidableEq

/-- The Python `.value` of a `TaskStatus` member. -/
def TaskStatus.value : TaskStatus → String
  | .PENDING => "pending"
  | .RUNNING => "running"
  | .COMPLETED => "completed"
  | .FAILED => "failed"
  | .RETRYING => "retrying"
  | .DEAD_LETTERED => "dead_lettered"

/-- A stored metadata record: the JSON document kept under
`task_meta:<task_id>`.  Field set mirrors the `TaskMetadata` dataclass.
`status` is a `String` because after the `default=str` round-trip the
stored value is sometimes `"TaskStatus.PENDING"` (fresh enqueue) and
sometimes a `.value` string like `"running"` (after `_update_task_status`);
`priority` is likewise kept in its stored `PyPrioVal` representation. -/
structure StoredMeta where
  task_id : String
  name : String
  priority : PyPrioVal
  status : String
  created_at : String
  scheduled_at : Option String
  started_at : Option String
  completed_at : Option String
  retry_count : Nat
  max_retries : Nat
  error_message : Option String
  timeout_seconds : Nat
deriving DecidableEq

/-- A task envelope as pushed on a tier list.  `enqueue_task` pushes
`{task_id, name, payload, priority (ordinal), created_at}`;
`mark_task_failed`'s retry branch would push `{task_id, name, payload,
priority, retry_count}` (no `created_at`), hence the two `Option`
fields. -/
structure TaskData where
  task_id : String
  name : String
  payload : String
  priority : PyPrioVal
  created_at : Option String
  retry_count : Option Nat
deriving DecidableEq

/-- A dead-letter record: `{task_id, metadata snapshot, dead_lettered_at}`
as built by `_move_to_dead_letter`.  (The Python record stores the error
inside the metadata snapshot's `error_message`.) -/
structure DLRecord where
  task_id : String
  metadata : StoredMeta
  dead_lettered_at : String
deriving DecidableEq

/-- The whole Redis keyspace used by `TaskQueue`: one list per priority
tier, the metadata association list, and the dead-letter list. -/
structure QueueState where
  low : List TaskData
  normal : List TaskData
  high : List TaskData
  urgent : List TaskData
  meta : List (String × StoredMeta)
  deadLetter : List DLRecord
deriving DecidableEq

/-- The empty keyspace (fresh Redis database). -/
def initState : QueueState :=
  { low := [], normal := [], high := [], urgent := [], meta := [], deadLetter := [] }

/-- Lookup in the metadata association list (Redis GET on
`task_meta:<tid>`). -/
def assocFind : List (String × StoredMeta) → String → Option StoredMeta
  | [], _ => none
  | (k, v) :: rest, tid => if k = tid then some v else assocFind rest tid

/-- Replace-or-insert in the metadata association list (Redis SETEX on
`task_meta:<tid>`; the TTL refresh is not modelled). -/
def assocPut : List (String × StoredMeta) → String → StoredMeta → List (String × StoredMeta)
  | [], tid, md => [(tid, md)]
  | (k, v) :: rest, tid, md =>
    if k = tid then (tid, md) :: rest else (k, v) :: assocPut rest tid md

/-- Metadata lookup on a queue state. -/
def lookupMeta (s : QueueState) (tid : String) : Option StoredMeta :=
  assocFind s.meta tid

/-- Metadata write on a queue state. -/
def putMeta (s : QueueState) (tid : String) (md : StoredMeta) : QueueState :=
  { s with meta := assocPut s.meta tid md }

/-- The list stored at tier `p`. -/
def tier (s : QueueState) : TaskPriority → List TaskData
  | .LOW => s.low
  | .NORMAL => s.normal
  | .HIGH => s.high
  | .URGENT => s.urgent

/-- Redis LPUSH on tier `p` (new element at the head). -/
def pushTier (s : QueueState) (p : TaskPriority) (e : TaskData) : QueueState :=
  match p with
  | .LOW => { s with low := e :: s.low }
  | .NORMAL => { s with normal := e :: s.normal }
  | .HIGH => { s with high := e :: s.high }
  | .URGENT => { s with urgent := e :: s.urgent }

/-- Redis RPOP: remove and return the last element of a list (the oldest
LPUSHed entry), or `none` on an empty list. -/
def rpop : List TaskData → Option (TaskData × List TaskData)
  | [] => none
  | a :: rest =>
    match rpop rest with
    | none => some (a, [])
    | some (t, l) => some (t, a :: l)

/-- The task envelope built by `enqueue_task` (lines 103-109 of
`task_queue.py`): `payload` is the `json.dumps` serialisation, `priority`
is the ordinal `priority.value`. -/
def enqEnvelope (tid task_name payload : String) (priority : TaskPriority)
    (now : String) : TaskData :=
  { task_id := tid
    name := task_name
    payload := payload
    priority := PyPrioVal.pint priority.value
    created_at := some now
    retry_count := none }

/-- Embedding of `TaskQueue.enqueue_task`.  `tid` is the fresh
`uuid.uuid4()`, `now` is `datetime.utcnow().isoformat()`, and `schedTime`
is the precomputed `now + scheduled_delay` timestamp (only used when
`scheduled_delay` is truthy — note that Python's `not scheduled_delay` is
true for both `None` and `0`).  The stored metadata's `priority` and
`status` fields hold the `default=str` string forms. -/
def enqueueTask (s : QueueState) (task_name payload : String) (priority : TaskPriority)
    (scheduled_delay : Option Nat) (tid now schedTime : String) : String × QueueState :=
  let md : StoredMeta :=
    { task_id := tid
      name := task_name
      priority := PyPrioVal.pstr ("TaskPriority." ++ priority.nameStr)
      status := "TaskStatus.PENDING"
      created_at := now
      scheduled_at :=
        match scheduled_delay with
        | none => none
        | some 0 => none
        | some _ => some schedTime
      started_at := none
      completed_at := none
      retry_count := 0
      max_retries := 3
      error_message := none
      timeout_seconds := 3600 }
  (tid, putMeta (pushTier s priority (enqEnvelope tid task_name payload priority now)) tid md)

/-- Embedding of `TaskQueue._update_task_status`: on a missing metadata
record it logs and returns `False`; otherwise it sets the `.value` status
string, stamps `started_at` on RUNNING and `completed_at` on COMPLETED
with the current time, persists, and returns `True`.  The Python `result`
parameter is accepted and never used by the source, so it is omitted. -/
def updateTaskStatus (s : QueueState) (tid : String) (status : TaskStatus)
    (now : String) : Bool × QueueState :=
  match lookupMeta s tid with
  | none => (false, s)
  | some md =>
    let md1 : StoredMeta :=
      { md with
        status := status.value
        started_at := if status = TaskStatus.RUNNING then some now else md.started_at
        completed_at := if status = TaskStatus.COMPLETED then some now else md.completed_at }
    (true, putMeta s tid md1)

/-- The metadata side effect of a successful pop in `dequeue_task`: the
status write to RUNNING (whose boolean result `dequeue_task` ignores). -/
def afterPop (s : QueueState) (t : TaskData) (now : String) : QueueState :=
  (updateTaskStatus s t.task_id TaskStatus.RUNNING now).2

/-- Embedding of `TaskQueue.dequeue_task`: scan tiers from highest to
lowest ordinal (`sorted(TaskPriority, key=value, reverse=True)` gives
URGENT, HIGH, NORMAL, LOW), RPOP the first non-empty tier, mark the task
RUNNING, and return it; return `none` when every tier is empty. -/
def dequeueTask (s : QueueState) (now : String) : Option TaskData × QueueState :=
  match rpop s.urgent with
  | some (t, l) => (some t, afterPop { s with urgent := l } t now)
  | none =>
    match rpop s.high with
    | some (t, l) => (some t, afterPop { s with high := l } t now)
    | none =>
      match rpop s.normal with
      | some (t, l) => (some t, afterPop { s with normal := l } t now)
      | none =>
        match rpop s.low with
        | some (t, l) => (some t, afterPop { s with low := l } t now)
        | none => (none, s)

/-- Embedding of `TaskQueue.mark_task_completed` (the ignored `result`
argument is omitted, see `updateTaskStatus`). -/
def markTaskCompleted (s : QueueState) (tid : String) (now : String) : Bool × QueueState :=
  updateTaskStatus s tid TaskStatus.COMPLETED now

/-- Embedding of `TaskQueue._move_to_dead_letter`: re-reads the metadata,
builds a snapshot with status `dead_lettered` and the error message, and
LPUSHes the dead-letter record.  Note the Python code mutates only its
local `metadata` dict and never writes it back with SETEX: the *stored*
metadata record is left unchanged. -/
def moveToDeadLetter (s : QueueState) (tid err now : String) : Bool × QueueState :=
  match lookupMeta s tid with
  | none => (false, s)
  | some md =>
    let snap : StoredMeta :=
      { md with status := TaskStatus.DEAD_LETTERED.value, error_message := some err }
    (true,
      { s with
        deadLetter := { task_id := tid, metadata := snap, dead_lettered_at := now } :: s.deadLetter })

/-- The retry envelope that `mark_task_failed` builds (lines 169-175):
`payload` comes from `metadata.get('payload', '\x7b\x7d')` — the stored
metadata document has *no* `payload` key (the `TaskMetadata` dataclass has
no such field), so the default `"\x7b\x7d"` is always used; `priority` is
the stored metadata value; there is no `created_at` key. -/
def retryEnvelope (md : StoredMeta) (tid : String) : TaskData :=
  { task_id := tid
    name := md.name
    payload := "\x7b\x7d"
    priority := md.priority
    created_at := none
    retry_count := some md.retry_count }

/-- Embedding of `TaskQueue.mark_task_failed`.  On a missing record:
`False`.  If `retry_count < max_retries`: persist the incremented
retry count with status `retrying` and the error message, then compute
`TaskPriority(metadata['priority'])` for the queue key — this is
`TaskPriority.ofValue` on the stored `PyPrioVal`, and when it raises the
`ValueError` propagates with the metadata write already applied; when it
succeeds the retry envelope is LPUSHed and `True` returned.  Otherwise
the task is moved to the dead-letter queue. -/
def markTaskFailed (s : QueueState) (tid err now : String) :
    Except String Bool × QueueState :=
  match lookupMeta s tid with
  | none => (Except.ok false, s)
  | some md =>
    if md.retry_count < md.max_retries then
      let md1 : StoredMeta :=
        { md with
          retry_count := md.retry_count + 1
          status := TaskStatus.RETRYING.value
          error_message := some err }
      let s1 := putMeta s tid md1
      match TaskPriority.ofValue md1.priority with
      | Except.error e => (Except.error e, s1)
      | Except.ok pr => (Except.ok true, pushTier s1 pr (retryEnvelope md1 tid))
    else
      let r := moveToDeadLetter s tid err now
      (Except.ok r.1, r.2)

/-- Embedding of `TaskQueue.get_task_status`: the stored metadata
document, or `none`. -/
def getTaskStatus (s : QueueState) (tid : String) : Option StoredMeta :=
  lookupMeta s tid

/-- Result shape of `TaskQueue.get_queue_stats`: LLEN of each tier list
and of the dead-letter list. -/
structure QueueStats where
  low_queue : Nat
  normal_queue : Nat
  high_queue : Nat
  urgent_queue : Nat
  dead_letter_queue : Nat
deriving DecidableEq

/-- Embedding of `TaskQueue.get_queue_stats`. -/
def getQueueStats (s : QueueState) : QueueStats :=
  { low_queue := s.low.length
    normal_queue := s.normal.length
    high_queue := s.high.length
    urgent_queue := s.urgent.length
    dead_letter_queue := s.deadLetter.length }

/-- Embedding of `TaskQueue.get_dead_letter_tasks`: `LRANGE key 0
(limit-1)`.  For `limit = 0` the Python `limit - 1` is `-1`, and
`LRANGE 0 -1` returns the whole list.  Purely a read: no state change. -/
def getDeadLetterTasks (s : QueueState) (limit : Nat) : List DLRecord :=
  if limit = 0 then s.deadLetter else s.deadLetter.take limit

/-- Embedding of `TaskQueue.clear_queue`: DEL on one tier key, or on all
four tier keys when called without a priority (plain `Enum` members are
always truthy, so `if priority:` distinguishes exactly `None`).  The
dead-letter key `task_queue:dead_letter` is not among the four
`task_queue:<PRIORITY_NAME>` keys and is never deleted. -/
def clearQueue (s : QueueState) (p : Option TaskPriority) : QueueState :=
  match p with
  | some TaskPriority.LOW => { s with low := [] }
  | some TaskPriority.NORMAL => { s with normal := [] }
  | some TaskPriority.HIGH => { s with high := [] }
  | some TaskPriority.URGENT => { s with urgent := [] }
  | none => { s with low := [], normal := [], high := [], urgent := [] }

/-- Total number of queued envelopes across the four tiers. -/
def totalSize (s : QueueState) : Nat :=
  s.urgent.length + s.high.length + s.normal.length + s.low.length

/-- Iterated dequeue: the list of tasks handed out by up to `fuel`
consecutive `dequeue_task` calls (stopping at the first Empty). -/
def drainQueue (fuel : Nat) (s : QueueState) (now : String) : List TaskData :=
  match fuel with
  | 0 => []
  | Nat.succ n =>
    match dequeueTask s now with
    | (none, _) => []
    | (some t, s1) => t :: drainQueue n s1 now

/-- All task ids currently sitting in some tier list. -/
def idsOf (s : QueueState) : List String :=
  (s.urgent ++ s.high ++ s.normal ++ s.low).map TaskData.task_id

/-!
Embedding of `OrchestrationEngine.process_tasks`
(`src/soc/orchestration_engine.py`, lines 51-68).  The per-task work
`_execute_task` routes on the task name to handlers that call the external
workflow orchestrator and state machine (`workflow_orchestrator.py` and
`state_machine.py` are not part of this repository snapshot); for the
dispatch loop only its outcome matters — a result dict (which
`mark_task_completed` ignores) or a raised exception — so the executor is
an explicit oracle `ex : TaskData → Except String Unit`.  The Python loop
is `for _ in range(batch_size)`: dequeue; break on Empty; `try` execute +
`mark_task_completed` + `processed += 1`; on exception call
`mark_task_failed`.  The `mark_task_failed` call sits inside the `except`
handler and is itself unprotected: if it raises, the exception escapes
`process_tasks` (the state mutations already performed persist). -/

/-- Recursive worker for `processTasks` (one step per loop iteration of
`for _ in range(batch_size)`). -/
def processTasksGo (ex : TaskData → Except String Unit) (now : String) :
    Nat → QueueState → Nat → Except String Nat × QueueState
  | 0, s, processed => (Except.ok processed, s)
  | Nat.succ b, s, processed =>
    match dequeueTask s now with
    | (none, s1) => (Except.ok processed, s1)
    | (some t, s1) =>
      match ex t with
      | Except.ok _ =>
        processTasksGo ex now b (markTaskCompleted s1 t.task_id now).2 (processed + 1)
      | Except.error e =>
        match markTaskFailed s1 t.task_id e now with
        | (Except.ok _, s2) => processTasksGo ex now b s2 processed
        | (Except.error ve, s2) => (Except.error ve, s2)

/-- Embedding of `OrchestrationEngine.process_tasks`: returns the
`processed` count, or the exception that escaped the loop, together with
the final queue state. -/
def processTasks (ex : TaskData → Except String Unit) (s : QueueState)
    (batch_size : Nat) (now : String) : Except String Nat × QueueState :=
  processTasksGo ex now batch_size s 0

/-!
Operation alphabet for trace-level properties: one constructor per public
`TaskQueue` method, with the environment inputs (fresh uuid, timestamps)
carried in the operation.  `get_dead_letter_tasks` and `get_queue_stats`
only issue Redis reads (LRANGE / LLEN), so their state transition is the
identity. -/

/-- One public `TaskQueue` call. -/
inductive Op where
  | enq (task_name payload : String) (priority : TaskPriority)
      (scheduled_delay : Option Nat) (tid now schedTime : String)
  | deq (now : String)
  | complete (tid now : String)
  | fail (tid err now : String)
  | peekDL (limit : Nat)
  | stats
  | clear (p : Option TaskPriority)

/-- The state transition of one `TaskQueue` call (returned values
discarded). -/
def stepOp (s : QueueState) : Op → QueueState
  | .enq n pl p d tid now st => (enqueueTask s n pl p d tid now st).2
  | .deq now => (dequeueTask s now).2
  | .complete tid now => (markTaskCompleted s tid now).2
  | .fail tid err now => (markTaskFailed s tid err now).2
  | .peekDL _ => s
  | .stats => s
  | .clear p => clearQueue s p

/-- Run a sequence of calls. -/
def runOps (s : QueueState) : List Op → QueueState
  | [] => s
  | op :: ops => runOps (stepOp s op) ops

/-- Whether a call is a dead-letter event in state `s`: a failure report
for a task whose metadata exists and whose retry budget is exhausted
(`mark_task_failed` then takes the `_move_to_dead_letter` branch, which
finds the same metadata and appends a record). -/
def isDLEvent (s : QueueState) : Op → Bool
  | .fail tid _ _ =>
    match lookupMeta s tid with
    | none => false
    | some md => if md.retry_count < md.max_retries then false else true
  | _ => false

/-- Number of dead-letter events along a run. -/
def countDL (s : QueueState) : List Op → Nat
  | [] => 0
  | op :: ops => (if isDLEvent s op then 1 else 0) + countDL (stepOp s op) ops

/-! Helper lemmas. -/

theorem rpop_eq_none {l : List TaskData} : rpop l = none ↔ l = [] := by
  constructor
  · intro h
    cases l with
    | nil => rfl
    | cons a rest =>
      unfold rpop at h
      cases hr : rpop rest <;> simp [hr] at h
  · intro h
    subst h
    rfl

theorem rpop_eq_some {l l' : List TaskData} {t : TaskData}
    (h : rpop l = some (t, l')) : l = l' ++ [t] := by
  induction l generalizing l' with
  | nil => simp [rpop] at h
  | cons a rest ih =>
    unfold rpop at h
    cases hr : rpop rest with
    | none =>
      rw [hr] at h
      simp only [Option.some.injEq, Prod.mk.injEq] at h
      obtain ⟨rfl, rfl⟩ := h
      rw [rpop_eq_none.mp hr]
      rfl
    | some tl =>
      obtain ⟨t0, l0⟩ := tl
      rw [hr] at h
      simp only [Option.some.injEq, Prod.mk.injEq] at h
      obtain ⟨rfl, rfl⟩ := h
      simp [ih hr]

@[simp]
theorem updateTaskStatus_low (s : QueueState) (tid : String) (st : TaskStatus)
    (now : String) : ((updateTaskStatus s tid st now).2).low = s.low := by
  unfold updateTaskStatus
  cases lookupMeta s tid <;> simp [putMeta]

@[simp]
theorem updateTaskStatus_normal (s : QueueState) (tid : String) (st : TaskStatus)
    (now : String) : ((updateTaskStatus s tid st now).2).normal = s.normal := by
  unfold updateTaskStatus
  cases lookupMeta s tid <;> simp [putMeta]

@[simp]
theorem updateTaskStatus_high (s : QueueState) (tid : String) (st : TaskStatus)
    (now : String) : ((updateTaskStatus s tid st now).2).high = s.high := by
  unfold updateTaskStatus
  cases lookupMeta s tid <;> simp [putMeta]

@[simp]
theorem updateTaskStatus_urgent (s : QueueState) (tid : String) (st : TaskStatus)
    (now : String) : ((updateTaskStatus s tid st now).2).urgent = s.urgent := by
  unfold updateTaskStatus
  cases lookupMeta s tid <;> simp [putMeta]

@[simp]
theorem updateTaskStatus_deadLetter (s : QueueState) (tid : String) (st : TaskStatus)
    (now : String) : ((updateTaskStatus s tid st now).2).deadLetter = s.deadLetter := by
  unfold updateTaskStatus
  cases lookupMeta s tid <;> simp [putMeta]

@[simp]
theorem afterPop_low (s : QueueState) (t : TaskData) (now : String) :
    (afterPop s t now).low = s.low := updateTaskStatus_low ..

@[simp]
theorem afterPop_normal (s : QueueState) (t : TaskData) (now : String) :
    (afterPop s t now).normal = s.normal := updateTaskStatus_normal ..

@[simp]
theorem afterPop_high (s : QueueState) (t : TaskData) (now : String) :
    (afterPop s t now).high = s.high := updateTaskStatus_high ..

@[simp]
theorem afterPop_urgent (s : QueueState) (t : TaskData) (now : String) :
    (afterPop s t now).urgent = s.urgent := updateTaskStatus_urgent ..

@[simp]
theorem afterPop_deadLetter (s : QueueState) (t : TaskData) (now : String) :
    (afterPop s t now).deadLetter = s.deadLetter := updateTaskStatus_deadLetter ..

theorem dequeueTask_urgent_eq (s : QueueState) (now : String) (t : TaskData)
    (l : List TaskData) (h : rpop s.urgent = some (t, l)) :
    dequeueTask s now = (some t, afterPop { s with urgent := l } t now) := by
  unfold dequeueTask
  rw [h]

theorem dequeueTask_high_eq (s : QueueState) (now : String) (t : TaskData)
    (l : List TaskData) (hu : rpop s.urgent = none) (h : rpop s.high = some (t, l)) :
    dequeueTask s now = (some t, afterPop { s with high := l } t now) := by
  unfold dequeueTask
  rw [hu, h]

theorem dequeueTask_normal_eq (s : QueueState) (now : String) (t : TaskData)
    (l : List TaskData) (hu : rpop s.urgent = none) (hh : rpop s.high = none)
    (h : rpop s.normal = some (t, l)) :
    dequeueTask s now = (some t, afterPop { s with normal := l } t now) := by
  unfold dequeueTask
  rw [hu, hh, h]

theorem dequeueTask_low_eq (s : QueueState) (now : String) (t : TaskData)
    (l : List TaskData) (hu : rpop s.urgent = none) (hh : rpop s.high = none)
    (hn : rpop s.normal = none) (h : rpop s.low = some (t, l)) :
    dequeueTask s now = (some t, afterPop { s with low := l } t now) := by
  unfold dequeueTask
  rw [hu, hh, hn, h]

theorem dequeueTask_empty_eq (s : QueueState) (now : String)
    (h1 : s.urgent = []) (h2 : s.high = []) (h3 : s.normal = []) (h4 : s.low = []) :
    dequeueTask s now = (none, s) := by
  unfold dequeueTask
  rw [h1, h2, h3, h4]
  rfl

/-- Claim C9: on a queue state in which all priority tiers are empty,
`dequeue_task` returns Empty (`none`) and leaves the state unchanged; it
never blocks and never raises (the function is total and its only
empty-tier exit is the final `return None`). -/
theorem dequeue_empty_returns_none (s : QueueState) (now : String)
    (h1 : s.urgent = []) (h2 : s.high = []) (h3 : s.normal = []) (h4 : s.low = []) :
    dequeueTask s now = (none, s) :=
  dequeueTask_empty_eq s now h1 h2 h3 h4

/-- Witness for C9 at the initial (empty) queue state. -/
theorem dequeue_empty_returns_none_witness :
    dequeueTask initState "t0" = (none, initState) :=
  dequeue_empty_returns_none initState "t0" rfl rfl rfl rfl

/-- Claim C3: `dequeue_task` never returns a task from a lower-priority
tier while any higher-priority tier is non-empty: whenever it returns a
task, that task is the oldest entry of some tier `p`, every tier of
strictly higher priority is empty, tier `p` loses exactly that entry, and
all other tiers are untouched.  (In particular, while the HIGH tier is
non-empty, no NORMAL or LOW task can be returned.) -/
theorem dequeue_respects_priority (s : QueueState) (now : String) (t : TaskData)
    (s' : QueueState) (h : dequeueTask s now = (some t, s')) :
    ∃ p : TaskPriority,
      (tier s p).getLast? = some t ∧
      tier s' p = (tier s p).dropLast ∧
      (∀ q : TaskPriority, p.value < q.value → tier s q = []) ∧
      (∀ q : TaskPriority, q ≠ p → tier s' q = tier s q) := by
  unfold dequeueTask at h
  cases hu : rpop s.urgent with
  | some tl =>
    obtain ⟨t0, l0⟩ := tl
    rw [hu] at h
    simp only [Prod.mk.injEq, Option.some.injEq] at h
    obtain ⟨rfl, rfl⟩ := h
    have hd := rpop_eq_some hu
    refine ⟨TaskPriority.URGENT, ?_, ?_, ?_, ?_⟩
    · simp [tier, hd]
    · simp [tier, hd]
    · intro q hq
      cases q <;> simp [TaskPriority.value] at hq
    · intro q hq
      cases q <;> simp [tier] at hq ⊢
  | none =>
    rw [hu] at h
    cases hh : rpop s.high with
    | some tl =>
      obtain ⟨t0, l0⟩ := tl
      rw [hh] at h
      simp only [Prod.mk.injEq, Option.some.injEq] at h
      obtain ⟨rfl, rfl⟩ := h
      have hd := rpop_eq_some hh
      refine ⟨TaskPriority.HIGH, ?_, ?_, ?_, ?_⟩
      · simp [tier, hd]
      · simp [tier, hd]
      · intro q hq
        cases q <;> simp [TaskPriority.value] at hq
        exact rpop_eq_none.mp hu
      · intro q hq
        cases q <;> simp [tier] at hq ⊢
    | none =>
      rw [hh] at h
      cases hn : rpop s.normal with
      | some tl =>
        obtain ⟨t0, l0⟩ := tl
        rw [hn] at h
        simp only [Prod.mk.injEq, Option.some.injEq] at h
        obtain ⟨rfl, rfl⟩ := h
        have hd := rpop_eq_some hn
        refine ⟨TaskPriority.NORMAL, ?_, ?_, ?_, ?_⟩
        · simp [tier, hd]
        · simp [tier, hd]
        · intro q hq
          cases q <;> simp [TaskPriority.value] at hq
          · exact rpop_eq_none.mp hh
          · exact rpop_eq_none.mp hu
        · intro q hq
          cases q <;> simp [tier] at hq ⊢
      | none =>
        rw [hn] at h
        cases hl : rpop s.low with
        | some tl =>
          obtain ⟨t0, l0⟩ := tl
          rw [hl] at h
          simp only [Prod.mk.injEq, Option.some.injEq] at h
          obtain ⟨rfl, rfl⟩ := h
          have hd := rpop_eq_some hl
          refine ⟨TaskPriority.LOW, ?_, ?_, ?_, ?_⟩
          · simp [tier, hd]
          · simp [tier, hd]
          · intro q hq
            cases q <;> simp [TaskPriority.value] at hq
            · exact rpop_eq_none.mp hn
            · exact rpop_eq_none.mp hh
            · exact rpop_eq_none.mp hu
          · intro q hq
            cases q <;> simp [tier] at hq ⊢
        | none =>
          rw [hl] at h
          simp at h

/-- A concrete state for the C3 witness: one LOW task and one HIGH
task. -/
def c3state : QueueState :=
  { initState with
    low := [enqEnvelope "b" "nB" "pB" TaskPriority.LOW "t0"]
    high := [enqEnvelope "a" "nA" "pA" TaskPriority.HIGH "t0"] }

/-- Witness for C3: with a HIGH task and a LOW task queued, the dequeued
task is the HIGH one and every higher tier is empty. -/
theorem dequeue_respects_priority_witness :
    ∃ p : TaskPriority,
      (tier c3state p).getLast? = some (enqEnvelope "a" "nA" "pA" TaskPriority.HIGH "t0") ∧
      tier ((dequeueTask c3state "t1").2) p = (tier c3state p).dropLast ∧
      (∀ q : TaskPriority, p.value < q.value → tier c3state q = []) ∧
      (∀ q : TaskPriority, q ≠ p →
        tier ((dequeueTask c3state "t1").2) q = tier c3state q) :=
  dequeue_respects_priority c3state "t1" (enqEnvelope "a" "nA" "pA" TaskPriority.HIGH "t0")
    ((dequeueTask c3state "t1").2) rfl

theorem drainQueue_succ_some (n : Nat) (s : QueueState) (now : String) (t : TaskData)
    (s1 : QueueState) (h : dequeueTask s now = (some t, s1)) :
    drainQueue (n + 1) s now = t :: drainQueue n s1 now := by
  simp only [drainQueue, h]

theorem drainQueue_succ_none (n : Nat) (s : QueueState) (now : String)
    (s1 : QueueState) (h : dequeueTask s now = (none, s1)) :
    drainQueue (n + 1) s now = [] := by
  simp only [drainQueue, h]

/-- Drain order: given enough fuel, iterated `dequeue_task` empties the
queue and hands the tasks out tier by tier from URGENT down to LOW, each
tier oldest-first (RPOP order is the reverse of LPUSH order). -/
theorem drain_order (now : String) :
    ∀ (n : Nat) (s : QueueState), totalSize s ≤ n →
      drainQueue n s now
        = s.urgent.reverse ++ s.high.reverse ++ s.normal.reverse ++ s.low.reverse := by
  intro n
  induction n with
  | zero =>
    intro s h
    rw [Nat.le_zero] at h
    unfold totalSize at h
    obtain ⟨h1, h2, h3, h4⟩ : s.urgent = [] ∧ s.high = [] ∧ s.normal = [] ∧ s.low = [] := by
      constructor
      · exact List.length_eq_zero.mp (by omega)
      constructor
      · exact List.length_eq_zero.mp (by omega)
      constructor
      · exact List.length_eq_zero.mp (by omega)
      · exact List.length_eq_zero.mp (by omega)
    simp [drainQueue, h1, h2, h3, h4]
  | succ n ih =>
    intro s h
    cases hu : rpop s.urgent with
    | some tl =>
      obtain ⟨t, l⟩ := tl
      have hd := rpop_eq_some hu
      have hstep := dequeueTask_urgent_eq s now t l hu
      have hsize : totalSize (afterPop { s with urgent := l } t now) ≤ n := by
        simp only [totalSize, afterPop_low, afterPop_normal, afterPop_high, afterPop_urgent]
        simp only [totalSize, hd, List.length_append, List.length_singleton] at h
        omega
      rw [drainQueue_succ_some n s now t _ hstep, ih _ hsize]
      simp [hd, List.reverse_append]
    | none =>
      have hu0 := rpop_eq_none.mp hu
      cases hh : rpop s.high with
      | some tl =>
        obtain ⟨t, l⟩ := tl
        have hd := rpop_eq_some hh
        have hstep := dequeueTask_high_eq s now t l hu hh
        have hsize : totalSize (afterPop { s with high := l } t now) ≤ n := by
          simp only [totalSize, afterPop_low, afterPop_normal, afterPop_high, afterPop_urgent]
          simp only [totalSize, hd, List.length_append, List.length_singleton] at h
          omega
        rw [drainQueue_succ_some n s now t _ hstep, ih _ hsize]
        simp [hd, hu0, List.reverse_append]
      | none =>
        have hh0 := rpop_eq_none.mp hh
        cases hn : rpop s.normal with
        | some tl =>
          obtain ⟨t, l⟩ := tl
          have hd := rpop_eq_some hn
          have hstep := dequeueTask_normal_eq s now t l hu hh hn
          have hsize : totalSize (afterPop { s with normal := l } t now) ≤ n := by
            simp only [totalSize, afterPop_low, afterPop_normal, afterPop_high, afterPop_urgent]
            simp only [totalSize, hd, List.length_append, List.length_singleton] at h
            omega
          rw [drainQueue_succ_some n s now t _ hstep, ih _ hsize]
          simp [hd, hu0, hh0, List.reverse_append]
        | none =>
          have hn0 := rpop_eq_none.mp hn
          cases hl : rpop s.low with
          | some tl =>
            obtain ⟨t, l⟩ := tl
            have hd := rpop_eq_some hl
            have hstep := dequeueTask_low_eq s now t l hu hh hn hl
            have hsize : totalSize (afterPop { s with low := l } t now) ≤ n := by
              simp only [totalSize, afterPop_low, afterPop_normal, afterPop_high,
                afterPop_urgent]
              simp only [totalSize, hd, List.length_append, List.length_singleton] at h
              omega
            rw [drainQueue_succ_some n s now t _ hstep, ih _ hsize]
            simp [hd, hu0, hh0, hn0, List.reverse_append]
          | none =>
            have hl0 := rpop_eq_none.mp hl
            rw [drainQueue_succ_none n s now s
              (dequeueTask_empty_eq s now hu0 hh0 hn0 hl0)]
            simp [hu0, hh0, hn0, hl0]

/-- Concatenated (oldest-first) contents of the tiers of strictly higher
priority than `p`. -/
def higherTiersRev (s : QueueState) : TaskPriority → List TaskData
  | .LOW => s.urgent.reverse ++ s.high.reverse ++ s.normal.reverse
  | .NORMAL => s.urgent.reverse ++ s.high.reverse
  | .HIGH => s.urgent.reverse
  | .URGENT => []

/-- Concatenated (oldest-first) contents of the tiers of strictly lower
priority than `p`. -/
def lowerTiersRev (s : QueueState) : TaskPriority → List TaskData
  | .LOW => []
  | .NORMAL => s.low.reverse
  | .HIGH => s.normal.reverse ++ s.low.reverse
  | .URGENT => s.high.reverse ++ s.normal.reverse ++ s.low.reverse

/-- Claim C5: removal within a tier is FIFO relative to admission order.
Enqueue task A and then task B at the same priority `p`, from an
arbitrary starting state: draining the queue hands out the
higher-priority tiers, then tier `p`'s pre-existing entries oldest-first,
then A, then B (A strictly before B), then the lower tiers. -/
theorem fifo_within_tier (s : QueueState) (p : TaskPriority)
    (nameA payA tidA nowA schedA nameB payB tidB nowB schedB now : String)
    (dA dB : Option Nat) :
    drainQueue
        (totalSize ((enqueueTask
          ((enqueueTask s nameA payA p dA tidA nowA schedA).2)
          nameB payB p dB tidB nowB schedB).2))
        ((enqueueTask ((enqueueTask s nameA payA p dA tidA nowA schedA).2)
          nameB payB p dB tidB nowB schedB).2) now
      = higherTiersRev s p ++ (tier s p).reverse
          ++ [enqEnvelope tidA nameA payA p nowA, enqEnvelope tidB nameB payB p nowB]
          ++ lowerTiersRev s p := by
  rw [drain_order now _ _ le_rfl]
  cases p <;>
    simp [enqueueTask, putMeta, pushTier, tier, higherTiersRev, lowerTiersRev]

/-- Claim C4: the payload handed to `enqueue_task` is returned unchanged
(byte-for-byte, the payload being its `json.dumps` serialisation) by the
`dequeue_task` call that removes that task: in any drain of the queue
after the enqueue, the envelope carrying the fresh task id has exactly
the enqueued payload. -/
theorem payload_roundtrip (s : QueueState) (task_name payload : String)
    (p : TaskPriority) (d : Option Nat) (tid now schedTime now2 : String)
    (t : TaskData)
    (hfresh : tid ∉ idsOf s)
    (hmem : t ∈ drainQueue
      (totalSize ((enqueueTask s task_name payload p d tid now schedTime).2))
      ((enqueueTask s task_name payload p d tid now schedTime).2) now2)
    (hid : t.task_id = tid) :
    t.payload = payload := by
  rw [drain_order now2 _ _ le_rfl] at hmem
  have hmem' : t = enqEnvelope tid task_name payload p now ∨
      (t ∈ s.urgent ∨ t ∈ s.high ∨ t ∈ s.normal ∨ t ∈ s.low) := by
    cases p <;>
      simp [enqueueTask, putMeta, pushTier, List.mem_append, List.mem_reverse,
        List.mem_cons] at hmem <;>
      tauto
  rcases hmem' with rfl | hmem'
  · rfl
  · exfalso
    apply hfresh
    rw [← hid]
    simp only [idsOf, List.mem_map, List.mem_append]
    exact ⟨t, by tauto, rfl⟩

/-- Witness for C4: enqueue a task with payload `"p1"` into the empty
queue; the single drained envelope carries id `"a"` and payload `"p1"`. -/
theorem payload_roundtrip_witness :
    ("a" ∉ idsOf initState) ∧
      (enqEnvelope "a" "n" "p1" TaskPriority.NORMAL "t0").payload = "p1" :=
  ⟨by decide,
    payload_roundtrip initState "n" "p1" TaskPriority.NORMAL none "a" "t0" "ts" "t1"
      (enqEnvelope "a" "n" "p1" TaskPriority.NORMAL "t0") (by decide) (by decide) rfl⟩

theorem enqueueTask_deadLetter (s : QueueState) (n pl : String) (p : TaskPriority)
    (d : Option Nat) (tid now st : String) :
    ((enqueueTask s n pl p d tid now st).2).deadLetter = s.deadLetter := by
  cases p <;> simp [enqueueTask, putMeta, pushTier]

theorem dequeueTask_deadLetter (s : QueueState) (now : String) :
    ((dequeueTask s now).2).deadLetter = s.deadLetter := by
  cases hu : rpop s.urgent with
  | some tl =>
    obtain ⟨t, l⟩ := tl
    rw [dequeueTask_urgent_eq s now t l hu]
    simp
  | none =>
    cases hh : rpop s.high with
    | some tl =>
      obtain ⟨t, l⟩ := tl
      rw [dequeueTask_high_eq s now t l hu hh]
      simp
    | none =>
      cases hn : rpop s.normal with
      | some tl =>
        obtain ⟨t, l⟩ := tl
        rw [dequeueTask_normal_eq s now t l hu hh hn]
        simp
      | none =>
        cases hl : rpop s.low with
        | some tl =>
          obtain ⟨t, l⟩ := tl
          rw [dequeueTask_low_eq s now t l hu hh hn hl]
          simp
        | none =>
          rw [dequeueTask_empty_eq s now (rpop_eq_none.mp hu) (rpop_eq_none.mp hh)
            (rpop_eq_none.mp hn) (rpop_eq_none.mp hl)]

theorem markTaskFailed_deadLetter (s : QueueState) (tid err now : String) :
    ∃ pre : List DLRecord,
      ((markTaskFailed s tid err now).2).deadLetter = pre ++ s.deadLetter
        ∧ pre.length = (if isDLEvent s (Op.fail tid err now) then 1 else 0) := by
  cases hm : lookupMeta s tid with
  | none =>
    simp only [markTaskFailed, isDLEvent, hm]
    exact ⟨[], rfl, rfl⟩
  | some md =>
    by_cases hr : md.retry_count < md.max_retries
    · simp only [markTaskFailed, isDLEvent, hm, if_pos hr]
      cases ho : TaskPriority.ofValue md.priority with
      | error e =>
        refine ⟨[], ?_, rfl⟩
        simp [ho, putMeta]
      | ok pr =>
        refine ⟨[], ?_, rfl⟩
        cases pr <;> simp [ho, putMeta, pushTier]
    · simp only [markTaskFailed, isDLEvent, hm, if_neg hr, moveToDeadLetter]
      refine ⟨[{ task_id := tid,
                 metadata := { md with
                               status := TaskStatus.DEAD_LETTERED.value,
                               error_message := some err },
                 dead_lettered_at := now }], rfl, rfl⟩

/-- Per-operation form of the append-only property: each public call
prepends some (possibly empty) block of records to the dead-letter list —
exactly one record iff the call is a dead-letter event — and removes
nothing. -/
theorem stepOp_deadLetter (s : QueueState) (op : Op) :
    ∃ pre : List DLRecord,
      (stepOp s op).deadLetter = pre ++ s.deadLetter
        ∧ pre.length = (if isDLEvent s op then 1 else 0) := by
  cases op with
  | enq n pl p d tid now st =>
    exact ⟨[], by simp [stepOp, enqueueTask_deadLetter], by simp [isDLEvent]⟩
  | deq now =>
    exact ⟨[], by simp [stepOp, dequeueTask_deadLetter], by simp [isDLEvent]⟩
  | complete tid now =>
    exact ⟨[], by simp [stepOp, markTaskCompleted], by simp [isDLEvent]⟩
  | fail tid err now => exact markTaskFailed_deadLetter s tid err now
  | peekDL l => exact ⟨[], rfl, by simp [isDLEvent]⟩
  | stats => exact ⟨[], rfl, by simp [isDLEvent]⟩
  | clear p =>
    refine ⟨[], ?_, by simp [isDLEvent]⟩
    cases p with
    | none => simp [stepOp, clearQueue]
    | some pr => cases pr <;> simp [stepOp, clearQueue]

theorem runOps_deadLetter : ∀ (ops : List Op) (s : QueueState),
    ∃ pre : List DLRecord,
      (runOps s ops).deadLetter = pre ++ s.deadLetter ∧ pre.length = countDL s ops := by
  intro ops
  induction ops with
  | nil => exact fun s => ⟨[], rfl, rfl⟩
  | cons op ops ih =>
    intro s
    obtain ⟨p1, hp1, hl1⟩ := stepOp_deadLetter s op
    obtain ⟨p2, hp2, hl2⟩ := ih (stepOp s op)
    refine ⟨p2 ++ p1, ?_, ?_⟩
    · simp only [runOps, hp2, hp1, List.append_assoc]
    · simp only [List.length_append, hl1, hl2, countDL]
      omega

/-- Claim C8: the dead-letter list is append-only.  Along any sequence of
public `TaskQueue` calls the dead-letter list only grows by prepended
records — one per dead-letter event — so the depth reported by
`get_queue_stats` after the run exceeds the starting depth by exactly the
number of dead-letter events, and no entry is ever removed (the starting
list is a suffix of the final list).  `get_dead_letter_tasks` is a pure
read (`LRANGE`, encoded with no state output) and `clear_queue` deletes
only the four tier keys, leaving the dead-letter list untouched. -/
theorem dead_letter_append_only (s : QueueState) (ops : List Op)
    (p : Option TaskPriority) :
    (∃ pre : List DLRecord,
        (runOps s ops).deadLetter = pre ++ s.deadLetter
          ∧ pre.length = countDL s ops)
      ∧ (getQueueStats (runOps s ops)).dead_letter_queue
          = (getQueueStats s).dead_letter_queue + countDL s ops
      ∧ (clearQueue s p).deadLetter = s.deadLetter := by
  obtain ⟨pre, hpre, hlen⟩ := runOps_deadLetter ops s
  refine ⟨⟨pre, hpre, hlen⟩, ?_, ?_⟩
  · simp [getQueueStats, hpre, hlen]
    omega
  · cases p with
    | none => rfl
    | some pr => cases pr <;> rfl

/-!
Concrete runs exhibiting the divergences between the source and the
spec's retry/dead-letter sentences.  The root cause is the metadata
serialisation: `enqueue_task` stores `priority` as the string
`"TaskPriority.NORMAL"` (via `default=str`), and `mark_task_failed`'s
retry branch then evaluates `TaskPriority(metadata['priority'])`, which
raises `ValueError` — after the incremented retry count has already been
persisted, and before the re-enqueue LPUSH.  Additionally the stored
metadata document has no `payload` key (so a re-enqueue would carry
`'\x7b\x7d'`), and `_move_to_dead_letter` never writes the DEAD_LETTERED
status back to the metadata store. -/

/-- State after enqueueing one NORMAL task (id `"a"`). -/
def c1s1 : QueueState :=
  (enqueueTask initState "scan" "p1" TaskPriority.NORMAL none "a" "t0" "ts").2

/-- State after dequeuing it (status RUNNING). -/
def c1s2 : QueueState := (dequeueTask c1s1 "t1").2

/-- First failure report. -/
def c1f1 : Except String Bool × QueueState := markTaskFailed c1s2 "a" "e1" "t2"

/-- Second failure report. -/
def c1f2 : Except String Bool × QueueState := markTaskFailed c1f1.2 "a" "e2" "t3"

/-- Third failure report. -/
def c1f3 : Except String Bool × QueueState := markTaskFailed c1f2.2 "a" "e3" "t4"

/-- Fourth failure report. -/
def c1f4 : Except String Bool × QueueState := markTaskFailed c1f3.2 "a" "e4" "t5"

/-- Claim C1, behaviour of the code at the claim's own scenario
(max_retries = 3, four `report_failure` calls): the first three calls do
persist retry_count 1, 2, 3 with status RETRYING, but each raises
`ValueError` (priority round-trips through metadata as the string
`"TaskPriority.NORMAL"`) and re-admits nothing — every tier stays empty.
The fourth call does append a dead-letter record (snapshot status
`dead_lettered`, retry_count stays 3) and re-admits nothing, but the
stored metadata status remains `"retrying"`: the DEAD_LETTERED status is
never persisted, contradicting the claim's first-three-re-admissions and
its stored-status requirement. -/
theorem retry_bound_run_diverges :
    c1f1.1 = Except.error "ValueError: not a valid TaskPriority"
      ∧ (lookupMeta c1f1.2 "a").map StoredMeta.retry_count = some 1
      ∧ (lookupMeta c1f1.2 "a").map StoredMeta.status = some "retrying"
      ∧ totalSize c1f1.2 = 0
      ∧ c1f2.1 = Except.error "ValueError: not a valid TaskPriority"
      ∧ (lookupMeta c1f2.2 "a").map StoredMeta.retry_count = some 2
      ∧ c1f3.1 = Except.error "ValueError: not a valid TaskPriority"
      ∧ (lookupMeta c1f3.2 "a").map StoredMeta.retry_count = some 3
      ∧ c1f4.1 = Except.ok true
      ∧ c1f4.2.deadLetter.map DLRecord.task_id = ["a"]
      ∧ c1f4.2.deadLetter.map (fun r => r.metadata.status) = ["dead_lettered"]
      ∧ c1f4.2.deadLetter.map (fun r => r.metadata.retry_count) = [3]
      ∧ (lookupMeta c1f4.2 "a").map StoredMeta.status = some "retrying"
      ∧ (lookupMeta c1f4.2 "a").map StoredMeta.retry_count = some 3
      ∧ totalSize c1f4.2 = 0 :=
  ⟨rfl, rfl, rfl, rfl, rfl, rfl, rfl, rfl, rfl, rfl, rfl, rfl, rfl, rfl, rfl⟩

/-- State after enqueueing one NORMAL task (id `"b"`) with a non-trivial
payload. -/
def c2s1 : QueueState :=
  (enqueueTask initState "scan" "PAYLOAD1" TaskPriority.NORMAL none "b" "t0" "ts").2

/-- Dequeue of that task. -/
def c2deq : Option TaskData × QueueState := dequeueTask c2s1 "t1"

/-- Failure report with retry budget remaining (retry_count 0 < 3). -/
def c2f : Except String Bool × QueueState := markTaskFailed c2deq.2 "b" "efail" "t2"

/-- Claim C2, behaviour of the code when `report_failure` finds
`retry_count < max_retries`: no envelope is re-admitted to any tier —
the call raises `ValueError` before the LPUSH — and the envelope the
code builds for the re-enqueue (from the stored metadata) carries the
payload default `"\x7b\x7d"` (the metadata document has no `payload`
key) and no `created_at`, so even without the exception the payload and
identity fields would not be preserved. -/
theorem retry_readmission_diverges :
    (c2deq.1).map TaskData.payload = some "PAYLOAD1"
      ∧ (lookupMeta c2deq.2 "b").map StoredMeta.retry_count = some 0
      ∧ (lookupMeta c2deq.2 "b").map StoredMeta.max_retries = some 3
      ∧ c2f.1 = Except.error "ValueError: not a valid TaskPriority"
      ∧ totalSize c2f.2 = 0
      ∧ ∀ (md : StoredMeta) (tid : String),
          (retryEnvelope md tid).payload = "\x7b\x7d"
            ∧ (retryEnvelope md tid).created_at = none :=
  ⟨rfl, rfl, rfl, rfl, rfl, fun _ _ => ⟨rfl, rfl⟩⟩

/-- State with two NORMAL tasks, `"a"` enqueued before `"b"`. -/
def c6s2 : QueueState :=
  (enqueueTask
    ((enqueueTask initState "analysis_a" "p1" TaskPriority.NORMAL none "a" "t0" "ts").2)
    "analysis_b" "p2" TaskPriority.NORMAL none "b" "t1" "ts").2

/-- An executor whose task execution always raises (e.g. a handler
exception or an unknown task name in `_execute_task`). -/
def c6ex : TaskData → Except String Unit := fun _ => Except.error "Unknown task"

/-- The batch run: `process_tasks(batch_size=10)`. -/
def c6run : Except String Nat × QueueState := processTasks c6ex c6s2 10 "t2"

/-- Claim C6, behaviour of the code when a task execution fails inside a
batch: the `except` branch calls `mark_task_failed`, whose retry path
raises `ValueError` (stored priority string); the exception escapes
`process_tasks`, aborting the whole batch — the second task `"b"` is
never dequeued (still queued, metadata still PENDING), contradicting the
claim that a single task's failure never aborts the batch. -/
theorem process_tasks_batch_aborts :
    c6run.1 = Except.error "ValueError: not a valid TaskPriority"
      ∧ c6run.2.normal.map TaskData.task_id = ["b"]
      ∧ (lookupMeta c6run.2 "a").map StoredMeta.retry_count = some 1
      ∧ (lookupMeta c6run.2 "b").map StoredMeta.status = some "TaskStatus.PENDING" :=
  ⟨rfl, rfl, rfl, rfl⟩

/-- State after enqueue + dequeue of task `"c"`. -/
def c7s2 : QueueState :=
  (dequeueTask (enqueueTask initState "scan" "p" TaskPriority.NORMAL none "c" "t0" "ts").2
    "t1").2

/-- First completion report, at time `"t2"`. -/
def c7c1 : Bool × QueueState := markTaskCompleted c7s2 "c" "t2"

/-- Second completion report for the same task, at time `"t9"`. -/
def c7c2 : Bool × QueueState := markTaskCompleted c7c1.2 "c" "t9"

/-- Claim C7, behaviour of the code on a second `report_success` for an
already-COMPLETED task: `_update_task_status` neither no-ops nor raises a
ConsistencyError — it returns `True` again and silently overwrites the
stored `completed_at` timestamp (`"t2"` becomes `"t9"`), exactly what the
claim forbids. -/
theorem completed_at_silent_overwrite :
    c7c1.1 = true
      ∧ (lookupMeta c7c1.2 "c").map StoredMeta.status = some "completed"
      ∧ (lookupMeta c7c1.2 "c").map StoredMeta.completed_at = some (some "t2")
      ∧ c7c2.1 = true
      ∧ (lookupMeta c7c2.2 "c").map StoredMeta.status = some "completed"
      ∧ (lookupMeta c7c2.2 "c").map StoredMeta.completed_at = some (some "t9") :=
  ⟨rfl, rfl, rfl, rfl, rfl, rfl⟩

end SocQueue

namespace SocAlert

/-!
Embedding of `AlertHandlerWithPredictiveActions.handle_alert`
(`src/soc/alert_handler_with_predictive_actions.py`).  The aiohttp POST is
an environment interaction; its outcome is the parameter
`api : Except String (Nat × PredBody)` — a network-level exception, or an
HTTP status code with the decoded JSON body.  JSON dictionaries coming
from the network may lack keys, so the body and the action dictionaries
carry `Option` fields for key presence; a bracket access
`d["k"]` on a missing key is the `Except.error "KeyError: k"` produced by
`reqField`, while `.get` accesses use the stored `Option` directly.
Python's float `success_rate` is modelled with exact rationals (`ℚ`);
only the `confidence` UI field depends on it and no claim inspects that
value. -/

/-- Embedding of the `Alert` dataclass.  `context` is an opaque JSON
document (serialised form). -/
structure Alert where
  alert_id : String
  alert_type : String
  severity : String
  title : String
  description : String
  source : String
  timestamp : String
  context : Option String
  user_id : Option String
  session_id : Option String
deriving DecidableEq

/-- An action dictionary from the predictive-actions API response: outer
`Option` is key presence (`none` = missing key, so bracket access raises
`KeyError`); for `success_rate` the inner `Option` is a JSON `null`. -/
structure ActionDict where
  action_id : Option String
  title : Option String
  description : Option String
  action_type : Option String
  priority : Option Nat
  estimated_time : Option String
  success_rate : Option (Option ℚ)
deriving DecidableEq

/-- The decoded JSON body of a `/api/predictive_actions` response: outer
`Option`s are key presence; `recommended_action_id` may be present and
`null` (`some none`). -/
structure PredBody where
  request_id : Option String
  actions : Option (List ActionDict)
  recommended_action_id : Option (Option String)
deriving DecidableEq

/-- Bracket access `d[k]` on a JSON dict: `KeyError` when the key is
missing. -/
def reqField {α : Type} (v : Option α) (k : String) : Except String α :=
  match v with
  | none => Except.error ("KeyError: " ++ k)
  | some x => Except.ok x

/-- Embedding of `_get_button_label`. -/
def getButtonLabel (action_type : String) : String :=
  if action_type = "auto_fix" then "Execute Fix"
  else if action_type = "manual_review" then "Review Details"
  else if action_type = "escalate" then "Escalate"
  else if action_type = "ignore" then "Dismiss"
  else "Action"

/-- Embedding of `_get_icon`. -/
def getIcon (action_type : String) : String :=
  if action_type = "auto_fix" then "🔧"
  else if action_type = "manual_review" then "👁"
  else if action_type = "escalate" then "⚠"
  else if action_type = "ignore" then "✓"
  else "➤"

/-- A formatted UI action as built by `_format_actions_for_ui`. -/
structure UiAction where
  id : String
  title : String
  description : String
  typ : String
  priority : Nat
  estimated_time : String
  confidence : Int
  is_recommended : Bool
  button_label : String
  icon : String
deriving DecidableEq

/-- Formatting of one action dict (loop body of `_format_actions_for_ui`):
bracket accesses on `action_id`, `title`, `description`, `action_type`,
`priority` can raise `KeyError`; `estimated_time` and `success_rate` use
`.get` defaults (`(action.get("success_rate", 0) or 0)` maps both a
missing key and a JSON `null` to `0`). -/
def formatAction (recommended_id : Option String) (a : ActionDict) :
    Except String UiAction := do
  let aid ← reqField a.action_id "action_id"
  let ti ← reqField a.title "title"
  let de ← reqField a.description "description"
  let ty ← reqField a.action_type "action_type"
  let pr ← reqField a.priority "priority"
  let sr : ℚ :=
    match a.success_rate with
    | none => 0
    | some none => 0
    | some (some q) => q
  pure
    { id := aid
      title := ti
      description := de
      typ := ty
      priority := pr
      estimated_time := a.estimated_time.getD "Unknown"
      confidence := round (sr * 100)
      is_recommended :=
        match recommended_id with
        | some r => aid = r
        | none => false
      button_label := getButtonLabel ty
      icon := getIcon ty }

/-- Embedding of `_format_actions_for_ui`: format each action in order,
the first `KeyError` aborting the whole list (the Python loop raises). -/
def formatActionsForUi (actions : List ActionDict) (recommended_id : Option String) :
    Except String (List UiAction) :=
  actions.mapM (formatAction recommended_id)

/-- Embedding of `severity_colors.get(severity, "#cccccc")` in
`_create_notification`. -/
def severityColor (severity : String) : String :=
  if severity = "critical" then "#ff0000"
  else if severity = "high" then "#ff6600"
  else if severity = "medium" then "#ffaa00"
  else if severity = "low" then "#00aa00"
  else "#cccccc"

/-- The notification dict built by `_create_notification`. -/
structure Notification where
  title : String
  message : String
  severity : String
  color : String
  action_count : Nat
  recommended_action : Option String
deriving DecidableEq

/-- Embedding of `_create_notification` (called only after
`recommendations["actions"]` has been read successfully, so it receives
the action list; `recommended_action` uses `.get`, which flattens a
missing key and a `null` to `None`). -/
def createNotification (alert : Alert) (actions : List ActionDict)
    (recommended : Option (Option String)) : Notification :=
  { title := alert.title
    message := alert.description
    severity := alert.severity
    color := severityColor alert.severity
    action_count := actions.length
    recommended_action :=
      match recommended with
      | some (some r) => some r
      | _ => none }

/-- Embedding of `_get_predictive_actions`: raises `RuntimeError` when the
session is not initialised, propagates any network exception, raises
`Exception("API error: <status>")` on a non-200 status, and otherwise
returns the decoded JSON body.  (The request payload built from the alert
does not influence the modelled outcome, which is the `api` parameter.) -/
def getPredictiveActions (sessionInit : Bool)
    (api : Except String (Nat × PredBody)) : Except String PredBody :=
  if sessionInit = false then Except.error "RuntimeError: Session not initialized"
  else
    match api with
    | Except.error e => Except.error e
    | Except.ok (status, body) =>
      if status = 200 then Except.ok body
      else Except.error ("API error: " ++ toString status)

/-- The two result-dict shapes `handle_alert` can return: the success
response (status `"ready_for_action"`) or the `except`-branch error dict
`{alert_id, status: "error", error}`. -/
inductive HandleResult where
  | success (alert_id alert_type timestamp request_id : String)
      (actions : List UiAction) (notification : Notification) (status : String)
  | failure (alert_id : String) (status : String) (error : String)
deriving DecidableEq

/-- The `alert_id` field of either result shape. -/
def HandleResult.alertId : HandleResult → String
  | .success a _ _ _ _ _ _ => a
  | .failure a _ _ => a

/-- The `status` field of either result shape. -/
def HandleResult.statusOf : HandleResult → String
  | .success _ _ _ _ _ _ st => st
  | .failure _ st _ => st

/-- The fallible part of `handle_alert`'s `try` block, in the source's
evaluation order: call the API, then build the response dict —
`recommendations["request_id"]`, then
`_format_actions_for_ui(recommendations["actions"],
recommendations["recommended_action_id"])`, then `_create_notification`
(which cannot raise at that point). -/
def handleAlertPipeline (alert : Alert) (sessionInit : Bool)
    (api : Except String (Nat × PredBody)) :
    Except String (String × List UiAction × Notification) :=
  match getPredictiveActions sessionInit api with
  | Except.error e => Except.error e
  | Except.ok recs =>
    match reqField recs.request_id "request_id" with
    | Except.error e => Except.error e
    | Except.ok rid =>
      match reqField recs.actions "actions" with
      | Except.error e => Except.error e
      | Except.ok acts =>
        match reqField recs.recommended_action_id "recommended_action_id" with
        | Except.error e => Except.error e
        | Except.ok recId =>
          match formatActionsForUi acts recId with
          | Except.error e => Except.error e
          | Except.ok ui =>
            Except.ok (rid, ui, createNotification alert acts recs.recommended_action_id)

/-- Embedding of `handle_alert`: the whole body is wrapped in
`try/except Exception`, so every modelled failure is mapped to the error
dict `{"alert_id": alert.alert_id, "status": "error", "error": str(e)}`;
on success the response carries status `"ready_for_action"`.  `now` is
the `datetime.utcnow().isoformat()` timestamp of the response.  The Lean
function is total: no exception can propagate to the caller. -/
def handleAlert (alert : Alert) (sessionInit : Bool)
    (api : Except String (Nat × PredBody)) (now : String) : HandleResult :=
  match handleAlertPipeline alert sessionInit api with
  | Except.ok (rid, ui, notif) =>
    HandleResult.success alert.alert_id alert.alert_type now rid ui notif "ready_for_action"
  | Except.error e => HandleResult.failure alert.alert_id "error" e

/-- Claim C10: `handle_alert` always returns a result dictionary and
never propagates an exception to its caller (the Lean embedding is a
total function, every modelled failure being routed through the
`try/except` into the error dict): the returned dict always carries the
original `alert_id`; it is either the success response with status
`"ready_for_action"` or the error dict with status `"error"` and the
error message; and in particular a non-200 response from the
predictive-actions API yields the error dict with message
`"API error: <status>"`. -/
theorem handle_alert_shape (alert : Alert) (sessionInit : Bool)
    (api : Except String (Nat × PredBody)) (now : String) :
    (handleAlert alert sessionInit api now).alertId = alert.alert_id
      ∧ ((handleAlert alert sessionInit api now).statusOf = "ready_for_action"
          ∨ ∃ e, handleAlert alert sessionInit api now
              = HandleResult.failure alert.alert_id "error" e)
      ∧ (∀ (st : Nat) (body : PredBody), sessionInit = true →
          api = Except.ok (st, body) → st ≠ 200 →
          handleAlert alert sessionInit api now
            = HandleResult.failure alert.alert_id "error"
                ("API error: " ++ toString st)) := by
  cases hp : handleAlertPipeline alert sessionInit api with
  | ok v =>
    obtain ⟨rid, ui, notif⟩ := v
    refine ⟨?_, Or.inl ?_, ?_⟩
    · simp [handleAlert, hp, HandleResult.alertId]
    · simp [handleAlert, hp, HandleResult.statusOf]
    · intro st body hs hapi hne
      exfalso
      subst hs
      subst hapi
      simp [handleAlertPipeline, getPredictiveActions, hne] at hp
  | error e =>
    refine ⟨?_, Or.inr ⟨e, ?_⟩, ?_⟩
    · simp [handleAlert, hp, HandleResult.alertId]
    · simp [handleAlert, hp]
    · intro st body hs hapi hne
      subst hs
      subst hapi
      have he : e = "API error: " ++ toString st := by
        simp [handleAlertPipeline, getPredictiveActions, hne] at hp
        exact hp.symm
      simp [handleAlert, hp, he]

/-- A concrete alert for the C10 witness. -/
def c10alert : Alert :=
  { alert_id := "a1", alert_type := "ci_failure", severity := "high", title := "T",
    description := "D", source := "src", timestamp := "ts", context := none,
    user_id := none, session_id := none }

/-- A concrete (empty) response body for the C10 witness. -/
def c10body : PredBody :=
  { request_id := none, actions := none, recommended_action_id := none }

/-- Witness for C10: a 500 response from the API produces the error dict
with the original alert id and the `"API error: 500"` message. -/
theorem handle_alert_shape_witness :
    handleAlert c10alert true (Except.ok (500, c10body)) "t0"
      = HandleResult.failure "a1" "error" ("API error: " ++ toString 500) :=
  (handle_alert_shape c10alert true (Except.ok (500, c10body)) "t0").2.2 500 c10body rfl rfl
    (by decide)

end SocAlert
